import Mathlib

/-!
Verification of the bounty governance core of `sunshine-bounty`
(`modules/util/src/bounty.rs`): the grant-application and milestone
state machines, the funding ledger record, and their accessors.

Rust generic structs become Lean structures parameterised by the same
type variables; Rust enums become inductives; `u32` identifiers become
`Nat` (no arithmetic is performed on them, so overflow is irrelevant);
`Option<T>` becomes `Option T`; methods that clone fields become pure
functions returning updated records.

Types imported by `bounty.rs` from sibling modules of the repository
(`organization::ShareID`, `organization::TermsOfAgreement`,
`bank::OnChainTreasuryID`, `voteyesno::SupportedVoteTypes`) are not part
of the examined sources; they are carried opaquely by the bounty code,
so they are modelled as plain record/enum data below, each marked in its
doc comment.
-/

namespace SunshineBounty

/-- Strongly typed vote identifier (`enum VoteID` in `bounty.rs`):
`Petition(u32)` or `Threshold(u32)`. -/
inductive VoteID
  | petition (id : Nat)
  | threshold (id : Nat)
deriving DecidableEq, Repr

/-- Modelled from the spec: `ShareID` is defined in the repository's
`organization` module, which is not among the examined sources;
`bounty.rs` only stores and compares it, so it is modelled as an opaque
numeric identifier. -/
structure ShareID where
  id : Nat
deriving DecidableEq, Repr

/-- Modelled from the spec: `TermsOfAgreement<AccountId, Shares>` is
defined in the repository's `organization` module, which is not among
the examined sources; `bounty.rs` only stores and clones it, so it is
modelled as opaque agreement data (an optional supervisor and a share
allocation list). -/
structure TermsOfAgreement (AccountId Shares : Type) where
  supervisor : Option AccountId
  shareMetadata : List (AccountId × Shares)
deriving DecidableEq, Repr

/-- Modelled from the spec: `OnChainTreasuryID` is defined in the
repository's `bank` module, which is not among the examined sources;
`bounty.rs` only stores it, so it is an opaque identifier. -/
structure OnChainTreasuryID where
  id : Nat
deriving DecidableEq, Repr

/-- Modelled from the spec: `SupportedVoteTypes` is defined in the
repository's `voteyesno` module, which is not among the examined
sources; `bounty.rs` only stores it inside `ReviewBoard`, so only its
tags are modelled. -/
inductive SupportedVoteTypes
  | oneAccountOneVote
  | shareWeighted
deriving DecidableEq, Repr

/-- Identifier for each registered team (`struct TeamID<AccountId>` in
`bounty.rs`): org id, optional team sudo, flat and weighted share-group
ids.  The source notes the rule `same org as bounty_info.foundation()`
in a doc comment. -/
structure TeamID (AccountId : Type) where
  org : Nat
  team_sudo : Option AccountId
  flat_share_id : Nat
  weighted_share_id : Nat
deriving DecidableEq, Repr

/-- `TeamID::new` from `bounty.rs`. -/
def TeamID.new (org : Nat) (team_sudo : Option AccountId)
    (flat_share_id weighted_share_id : Nat) : TeamID AccountId :=
  { org := org, team_sudo := team_sudo, flat_share_id := flat_share_id,
    weighted_share_id := weighted_share_id }

/-- Review-board governance policy (`enum ReviewBoard` in `bounty.rs`):
flat petition review (optional sudo, org id, flat share id, approval
threshold, optional rejection threshold, optional topic) or weighted
threshold review (optional sudo, org id, weighted share id, vote kind,
generic threshold). -/
inductive ReviewBoard (AccountId Hash WeightedThreshold : Type)
  | flatPetitionReview (opt_sudo : Option AccountId) (org_id : Nat)
      (flat_share_id : Nat) (signature_approval_threshold : Nat)
      (signature_rejection_threshold : Option Nat) (topic : Option Hash)
  | weightedThresholdReview (opt_sudo : Option AccountId) (org_id : Nat)
      (weighted_share_id : Nat) (vote_type : SupportedVoteTypes)
      (threshold : WeightedThreshold)

/-- `ReviewBoard::is_sudo` from `bounty.rs`: true iff a sudo is set and
equals the given account. -/
def ReviewBoard.is_sudo [DecidableEq AccountId]
    (b : ReviewBoard AccountId Hash WeightedThreshold)
    (acc : AccountId) : Bool :=
  match b with
  | .flatPetitionReview (some the_sudo) _ _ _ _ _ => the_sudo = acc
  | .weightedThresholdReview (some the_sudo) _ _ _ _ => the_sudo = acc
  | _ => false

/-- Bounty metadata (`struct BountyInformation` in `bounty.rs`). -/
structure BountyInformation (AccountId Hash WeightedThreshold Currency : Type) where
  description : Hash
  foundation_id : Nat
  bank_account : OnChainTreasuryID
  spend_reservation_id : Nat
  funding_reserved : Currency
  claimed_funding_available : Currency
  acceptance_committee : ReviewBoard AccountId Hash WeightedThreshold
  supervision_committee : Option (ReviewBoard AccountId Hash WeightedThreshold)

/-- `BountyInformation::new` from `bounty.rs`: plain constructor, no
validation of any kind. -/
def BountyInformation.new (description : Hash) (foundation_id : Nat)
    (bank_account : OnChainTreasuryID) (spend_reservation_id : Nat)
    (funding_reserved claimed_funding_available : Currency)
    (acceptance_committee : ReviewBoard AccountId Hash WeightedThreshold)
    (supervision_committee : Option (ReviewBoard AccountId Hash WeightedThreshold)) :
    BountyInformation AccountId Hash WeightedThreshold Currency :=
  { description := description, foundation_id := foundation_id,
    bank_account := bank_account, spend_reservation_id := spend_reservation_id,
    funding_reserved := funding_reserved,
    claimed_funding_available := claimed_funding_available,
    acceptance_committee := acceptance_committee,
    supervision_committee := supervision_committee }

/-- `BountyInformation::foundation` from `bounty.rs`. -/
def BountyInformation.foundation
    (b : BountyInformation AccountId Hash WeightedThreshold Currency) : Nat :=
  b.foundation_id

/-- Error taxonomy of the module (spec §7).  Modelled from the spec: the
dispatch layer that raises these errors is not among the examined
sources; only the three variants needed by the claims are modelled. -/
inductive BountyError
  | invalidTransition
  | consistencyError
  | insufficientCollateralization
deriving DecidableEq, Repr

/-- Modelled from the spec: the bounty-posting entry point with the
configured collateralization lower bound lives in the runtime module,
which is not among the examined sources.  Spec §4.2: `create(...)`
"fails with `InsufficientCollateralization` if
`funding_reserved / claimed_funding_available` is below the configured
lower bound", and otherwise builds the `BountyInformation` through
`BountyInformation::new` (which is in the sources).  Currency is taken
as `Nat` and the bound as the fraction `boundNum / boundDen`;
the ratio comparison `reserved / available < boundNum / boundDen` is
expressed multiplicatively as `reserved * boundDen < boundNum *
available`. -/
def createBounty (boundNum boundDen : Nat) (description : Hash)
    (foundation_id : Nat) (bank_account : OnChainTreasuryID)
    (spend_reservation_id : Nat)
    (funding_reserved claimed_funding_available : Nat)
    (acceptance_committee : ReviewBoard AccountId Hash WeightedThreshold)
    (supervision_committee : Option (ReviewBoard AccountId Hash WeightedThreshold)) :
    Except BountyError (BountyInformation AccountId Hash WeightedThreshold Nat) :=
  if funding_reserved * boundDen < boundNum * claimed_funding_available then
    .error .insufficientCollateralization
  else
    .ok (BountyInformation.new description foundation_id bank_account
      spend_reservation_id funding_reserved claimed_funding_available
      acceptance_committee supervision_committee)

/-- Milestone review lifecycle (`enum MilestoneStatus` in `bounty.rs`). -/
inductive MilestoneStatus
  | submittedAwaitingResponse
  | submittedReviewStarted (v : VoteID)
  | changesRequestedAwaitingChanges (v : VoteID)
  | approvedAndTransferEnabled
deriving DecidableEq, Repr

/-- One submitted milestone (`struct MilestoneSubmission` in
`bounty.rs`): submission hash, requested amount, and review status
(`None` upon immediate submission). -/
structure MilestoneSubmission (Hash Currency Status : Type) where
  submission : Hash
  amount : Currency
  review : Option Status
deriving DecidableEq, Repr

/-- `MilestoneSubmission::new` from `bounty.rs`: `review` starts as
`None`. -/
def MilestoneSubmission.new (submission : Hash) (amount : Currency) :
    MilestoneSubmission Hash Currency Status :=
  { submission := submission, amount := amount, review := none }

/-- Application lifecycle (`enum ApplicationState<AccountId>` in
`bounty.rs`). -/
inductive ApplicationState (AccountId : Type)
  | submittedAwaitingResponse
  | underReviewByAcceptanceCommittee (v : VoteID)
  | approvedByFoundationAwaitingTeamConsent (s : ShareID) (v : VoteID)
  | approvedAndLive (t : TeamID AccountId)
  | closed
deriving DecidableEq, Repr

/-- `ApplicationState::live` from `bounty.rs`: true on
`SubmittedAwaitingResponse` and `UnderReviewByAcceptanceCommittee`,
false otherwise. -/
def ApplicationState.live (s : ApplicationState AccountId) : Bool :=
  match s with
  | .submittedAwaitingResponse => true
  | .underReviewByAcceptanceCommittee _ => true
  | _ => false

/-- `ApplicationState::matches_registered_team` from `bounty.rs`: true
iff the state is `ApprovedAndLive(tid)` with `tid` equal to the given
team id. -/
def ApplicationState.matches_registered_team [DecidableEq AccountId]
    (s : ApplicationState AccountId) (team_id : TeamID AccountId) : Bool :=
  match s with
  | .approvedAndLive tid => tid = team_id
  | _ => false

/-- One funding request (`struct GrantApplication` in `bounty.rs`). -/
structure GrantApplication (AccountId Shares Currency Hash : Type) where
  description : Hash
  total_amount : Currency
  terms_of_agreement : TermsOfAgreement AccountId Shares
  state : ApplicationState AccountId
deriving DecidableEq, Repr

/-- `GrantApplication::new` from `bounty.rs`: a fresh application in
`SubmittedAwaitingResponse`. -/
def GrantApplication.new (description : Hash) (total_amount : Currency)
    (terms_of_agreement : TermsOfAgreement AccountId Shares) :
    GrantApplication AccountId Shares Currency Hash :=
  { description := description, total_amount := total_amount,
    terms_of_agreement := terms_of_agreement,
    state := .submittedAwaitingResponse }

/-- `StartApplicationReviewPetition::start_application_review_petition`
for `GrantApplication` in `bounty.rs`: rebuilds the application with
state `UnderReviewByAcceptanceCommittee(vote_id)`, unconditionally. -/
def GrantApplication.start_application_review_petition
    (a : GrantApplication AccountId Shares Currency Hash) (vote_id : VoteID) :
    GrantApplication AccountId Shares Currency Hash :=
  { description := a.description, total_amount := a.total_amount,
    terms_of_agreement := a.terms_of_agreement,
    state := .underReviewByAcceptanceCommittee vote_id }

/-- `StartApplicationReviewPetition::get_application_review_id` from
`bounty.rs`. -/
def GrantApplication.get_application_review_id
    (a : GrantApplication AccountId Shares Currency Hash) : Option VoteID :=
  match a.state with
  | .underReviewByAcceptanceCommittee vote_id => some vote_id
  | _ => none

/-- `StartTeamConsentPetition::start_team_consent_petition` for
`GrantApplication` in `bounty.rs`: rebuilds the application with state
`ApprovedByFoundationAwaitingTeamConsent(share_id, vote_id)`,
unconditionally. -/
def GrantApplication.start_team_consent_petition
    (a : GrantApplication AccountId Shares Currency Hash)
    (share_id : ShareID) (vote_id : VoteID) :
    GrantApplication AccountId Shares Currency Hash :=
  { description := a.description, total_amount := a.total_amount,
    terms_of_agreement := a.terms_of_agreement,
    state := .approvedByFoundationAwaitingTeamConsent share_id vote_id }

/-- `StartTeamConsentPetition::get_team_flat_id` from `bounty.rs`. -/
def GrantApplication.get_team_flat_id
    (a : GrantApplication AccountId Shares Currency Hash) : Option ShareID :=
  match a.state with
  | .approvedByFoundationAwaitingTeamConsent share_id _ => some share_id
  | _ => none

/-- `StartTeamConsentPetition::get_team_consent_id` from `bounty.rs`. -/
def GrantApplication.get_team_consent_id
    (a : GrantApplication AccountId Shares Currency Hash) : Option VoteID :=
  match a.state with
  | .approvedByFoundationAwaitingTeamConsent _ vote_id => some vote_id
  | _ => none

/-- `ApproveGrant::approve_grant` for `GrantApplication` in `bounty.rs`:
rebuilds the application with state `ApprovedAndLive(team_id)`,
unconditionally — no check of the current state and no check of
`team_id.org` against the bounty foundation. -/
def GrantApplication.approve_grant
    (a : GrantApplication AccountId Shares Currency Hash)
    (team_id : TeamID AccountId) :
    GrantApplication AccountId Shares Currency Hash :=
  { description := a.description, total_amount := a.total_amount,
    terms_of_agreement := a.terms_of_agreement,
    state := .approvedAndLive team_id }

/-- `ApproveGrant::get_full_team_id` from `bounty.rs`. -/
def GrantApplication.get_full_team_id
    (a : GrantApplication AccountId Shares Currency Hash) :
    Option (TeamID AccountId) :=
  match a.state with
  | .approvedAndLive team_id => some team_id
  | _ => none

/-- Modelled from the spec: `close()` (spec §4.3) has no implementation
among the examined sources — `ApplicationState::Closed` is declared in
`bounty.rs` but no operation produces it.  Spec: "from any non-terminal
state → `Closed`; idempotent — calling it on an already-`Closed`
application succeeds as a no-op".  Like the sourced transitions it
rebuilds the application, changing only the state. -/
def GrantApplication.close
    (a : GrantApplication AccountId Shares Currency Hash) :
    GrantApplication AccountId Shares Currency Hash :=
  { description := a.description, total_amount := a.total_amount,
    terms_of_agreement := a.terms_of_agreement,
    state := .closed }

/-- Modelled from the spec: the milestone transition
`start_milestone_review(vote_id)` (spec §4.4) has no implementation
among the examined sources — `bounty.rs` declares `MilestoneStatus` and
`MilestoneSubmission` but no transition on them.  Spec: "`None` →
`SubmittedReviewStarted(vote_id)`"; any other current status is an
`InvalidTransition`. -/
def MilestoneSubmission.start_milestone_review
    (m : MilestoneSubmission Hash Currency MilestoneStatus)
    (vote_id : VoteID) :
    Except BountyError (MilestoneSubmission Hash Currency MilestoneStatus) :=
  match m.review with
  | none => .ok { m with review := some (.submittedReviewStarted vote_id) }
  | some _ => .error .invalidTransition

/-- Modelled from the spec: the milestone transition
`request_changes(vote_id)` (spec §4.4) has no implementation among the
examined sources.  Spec: "`SubmittedReviewStarted` →
`ChangesRequestedAwaitingChanges(vote_id)`"; any other current status is
an `InvalidTransition`. -/
def MilestoneSubmission.request_changes
    (m : MilestoneSubmission Hash Currency MilestoneStatus)
    (vote_id : VoteID) :
    Except BountyError (MilestoneSubmission Hash Currency MilestoneStatus) :=
  match m.review with
  | some (.submittedReviewStarted _) =>
    .ok { m with review := some (.changesRequestedAwaitingChanges vote_id) }
  | _ => .error .invalidTransition

/-- Modelled from the spec: the milestone transition `approve_transfer()`
(spec §4.4) has no implementation among the examined sources.  Spec:
"from `SubmittedReviewStarted` or `ChangesRequestedAwaitingChanges` →
`ApprovedAndTransferEnabled`"; any other current status is an
`InvalidTransition`. -/
def MilestoneSubmission.approve_transfer
    (m : MilestoneSubmission Hash Currency MilestoneStatus) :
    Except BountyError (MilestoneSubmission Hash Currency MilestoneStatus) :=
  match m.review with
  | some (.submittedReviewStarted _) =>
    .ok { m with review := some .approvedAndTransferEnabled }
  | some (.changesRequestedAwaitingChanges _) =>
    .ok { m with review := some .approvedAndTransferEnabled }
  | _ => .error .invalidTransition

/-- Name of one milestone transition operation together with its
argument, used to quantify over sequences of operations. -/
inductive MilestoneOp
  | startReview (v : VoteID)
  | requestChanges (v : VoteID)
  | approveTransfer
deriving DecidableEq, Repr

/-- Dispatch one named milestone operation. -/
def applyMilestoneOp (op : MilestoneOp)
    (m : MilestoneSubmission Hash Currency MilestoneStatus) :
    Except BountyError (MilestoneSubmission Hash Currency MilestoneStatus) :=
  match op with
  | .startReview v => m.start_milestone_review v
  | .requestChanges v => m.request_changes v
  | .approveTransfer => m.approve_transfer

/-- Run a sequence of milestone operations, stopping at the first
error. -/
def runMilestoneOps :
    List MilestoneOp → MilestoneSubmission Hash Currency MilestoneStatus →
    Except BountyError (MilestoneSubmission Hash Currency MilestoneStatus)
  | [], m => .ok m
  | op :: ops, m =>
    match applyMilestoneOp op m with
    | .ok m2 => runMilestoneOps ops m2
    | .error e => .error e

/-- Position of a milestone review status in the lifecycle order of the
spec's data model (`None` ≈ freshly filed, then
`SubmittedReviewStarted` → `ChangesRequestedAwaitingChanges` →
`ApprovedAndTransferEnabled`). -/
def milestoneRank : Option MilestoneStatus → Nat
  | none => 0
  | some .submittedAwaitingResponse => 0
  | some (.submittedReviewStarted _) => 1
  | some (.changesRequestedAwaitingChanges _) => 2
  | some .approvedAndTransferEnabled => 3

/-- Position of an application state in the lifecycle order of the
spec's data model (`SubmittedAwaitingResponse` →
`UnderReviewByAcceptanceCommittee` →
`ApprovedByFoundationAwaitingTeamConsent` → `ApprovedAndLive`, with
`Closed` terminal). -/
def applicationRank : ApplicationState AccountId → Nat
  | .submittedAwaitingResponse => 0
  | .underReviewByAcceptanceCommittee _ => 1
  | .approvedByFoundationAwaitingTeamConsent _ _ => 2
  | .approvedAndLive _ => 3
  | .closed => 4

/-! Concrete example values used by counterexamples and witnesses. -/

/-- Example terms of agreement at concrete types. -/
def exTerms : TermsOfAgreement Nat Nat :=
  { supervisor := none, shareMetadata := [] }

/-- Example freshly submitted application at concrete types
(`submit(desc, 400, terms)` of the spec scenario). -/
def exApp : GrantApplication Nat Nat Nat Nat :=
  GrantApplication.new 0 400 exTerms

/-- Example team whose org matches a foundation id of 3. -/
def exTeam : TeamID Nat := TeamID.new 3 none 7 8

/-- Example acceptance committee at concrete types. -/
def exCommittee : ReviewBoard Nat Nat Nat :=
  .flatPetitionReview none 3 1 1 none none

/-- Example freshly filed milestone submission at concrete types. -/
def exMilestone : MilestoneSubmission Nat Nat MilestoneStatus :=
  MilestoneSubmission.new 0 100

/-- The example milestone after its review started with petition 1. -/
def exMilestoneStarted : MilestoneSubmission Nat Nat MilestoneStatus :=
  { exMilestone with review := some (.submittedReviewStarted (.petition 1)) }

/-- The example milestone in the terminal approved status. -/
def exMilestoneApproved : MilestoneSubmission Nat Nat MilestoneStatus :=
  { exMilestone with review := some .approvedAndTransferEnabled }

/-! Helper lemmas about the milestone state machine. -/

/-- Every successful milestone operation strictly advances the lifecycle
rank. -/
lemma applyMilestoneOp_rank_lt (op : MilestoneOp)
    (m m2 : MilestoneSubmission Hash Currency MilestoneStatus)
    (h : applyMilestoneOp op m = .ok m2) :
    milestoneRank m.review < milestoneRank m2.review := by
  rcases hm : m.review with _ | st
  · cases op <;>
      simp only [applyMilestoneOp, MilestoneSubmission.start_milestone_review,
        MilestoneSubmission.request_changes,
        MilestoneSubmission.approve_transfer, hm] at h <;>
      cases h
    all_goals simp [milestoneRank, hm]
  · cases st <;> cases op <;>
      simp only [applyMilestoneOp, MilestoneSubmission.start_milestone_review,
        MilestoneSubmission.request_changes,
        MilestoneSubmission.approve_transfer, hm] at h <;>
      cases h
    all_goals simp [milestoneRank, hm]

/-- No milestone operation succeeds from the terminal approved status:
each attempt returns `InvalidTransition`. -/
lemma milestone_approved_stuck
    (m : MilestoneSubmission Hash Currency MilestoneStatus)
    (op : MilestoneOp)
    (h : m.review = some .approvedAndTransferEnabled) :
    applyMilestoneOp op m = .error .invalidTransition := by
  cases op <;>
    simp [applyMilestoneOp, MilestoneSubmission.start_milestone_review,
      MilestoneSubmission.request_changes,
      MilestoneSubmission.approve_transfer, h]

/-- A successful run of milestone operations never decreases the
lifecycle rank, and strictly increases it when nonempty. -/
lemma runMilestoneOps_rank (ops : List MilestoneOp)
    (m m2 : MilestoneSubmission Hash Currency MilestoneStatus)
    (h : runMilestoneOps ops m = .ok m2) :
    milestoneRank m.review ≤ milestoneRank m2.review ∧
      (ops ≠ [] → milestoneRank m.review < milestoneRank m2.review) := by
  induction ops generalizing m with
  | nil =>
    cases h
    exact ⟨le_refl _, fun hne => absurd rfl hne⟩
  | cons op ops ih =>
    rw [runMilestoneOps] at h
    rcases happ : applyMilestoneOp op m with e | mi <;> rw [happ] at h
    · cases h
    · have hstep := applyMilestoneOp_rank_lt op m mi happ
      have hrest := ih mi h
      exact ⟨le_of_lt (lt_of_lt_of_le hstep hrest.1),
        fun _ => lt_of_lt_of_le hstep hrest.1⟩

/-- Running an appended sequence first runs the prefix. -/
lemma runMilestoneOps_append (l1 l2 : List MilestoneOp)
    (m mi : MilestoneSubmission Hash Currency MilestoneStatus)
    (h : runMilestoneOps l1 m = .ok mi) :
    runMilestoneOps (l1 ++ l2) m = runMilestoneOps l2 mi := by
  induction l1 generalizing m with
  | nil => cases h; rfl
  | cons op l1 ih =>
    rw [runMilestoneOps] at h
    rcases happ : applyMilestoneOp op m with e | m2 <;> rw [happ] at h
    · cases h
    · rw [List.cons_append, runMilestoneOps, happ]
      exact ih m2 h

/-! Claim theorems. -/

/-- C7: `live()` is true exactly for the `ApplicationState` variants
`SubmittedAwaitingResponse` and `UnderReviewByAcceptanceCommittee`, and
false for the other three variants, for every embedded vote id, share
id, and team id. -/
theorem c7_live_exhaustive {A : Type} (s : ApplicationState A) :
    s.live = true ↔
      (s = ApplicationState.submittedAwaitingResponse ∨
        ∃ v, s = ApplicationState.underReviewByAcceptanceCommittee v) := by
  cases s <;> simp [ApplicationState.live]

/-- C8: `matches_registered_team(team_id)` on a state `s` is true if and
only if `s` is `ApprovedAndLive(t)` with `t` equal to `team_id`; in
every other state, and for every unequal team id, it is false. -/
theorem c8_matches_registered_team_iff {A : Type} [DecidableEq A]
    (s : ApplicationState A) (t : TeamID A) :
    s.matches_registered_team t = true ↔
      s = ApplicationState.approvedAndLive t := by
  cases s <;> simp [ApplicationState.matches_registered_team]

/-- C9: each of `start_application_review_petition`,
`start_team_consent_petition` and `approve_grant` changes only the
`state` field: the returned application's `description`, `total_amount`
and `terms_of_agreement` equal those of the input. -/
theorem c9_frame {A S C H : Type} (a : GrantApplication A S C H)
    (v : VoteID) (sid : ShareID) (vid : VoteID) (t : TeamID A) :
    ((a.start_application_review_petition v).description = a.description ∧
      (a.start_application_review_petition v).total_amount = a.total_amount ∧
      (a.start_application_review_petition v).terms_of_agreement
        = a.terms_of_agreement) ∧
    ((a.start_team_consent_petition sid vid).description = a.description ∧
      (a.start_team_consent_petition sid vid).total_amount = a.total_amount ∧
      (a.start_team_consent_petition sid vid).terms_of_agreement
        = a.terms_of_agreement) ∧
    ((a.approve_grant t).description = a.description ∧
      (a.approve_grant t).total_amount = a.total_amount ∧
      (a.approve_grant t).terms_of_agreement = a.terms_of_agreement) :=
  ⟨⟨rfl, rfl, rfl⟩, ⟨rfl, rfl, rfl⟩, ⟨rfl, rfl, rfl⟩⟩

/-- C10: getter round-trips — `get_application_review_id` after
`start_application_review_petition(v)` returns `Some v`;
`get_team_flat_id` and `get_team_consent_id` after
`start_team_consent_petition(sid, vid)` return `Some sid` and
`Some vid`; `get_full_team_id` after `approve_grant(t)` returns
`Some t`. -/
theorem c10_getter_roundtrip {A S C H : Type} (a : GrantApplication A S C H)
    (v : VoteID) (sid : ShareID) (vid : VoteID) (t : TeamID A) :
    (a.start_application_review_petition v).get_application_review_id
        = some v ∧
    (a.start_team_consent_petition sid vid).get_team_flat_id = some sid ∧
    (a.start_team_consent_petition sid vid).get_team_consent_id = some vid ∧
    (a.approve_grant t).get_full_team_id = some t :=
  ⟨rfl, rfl, rfl, rfl⟩

/-- C6: `close()` is idempotent — applied to any application it yields
state `Closed`, and applied again it is a no-op yielding the same
terminal record; being a total function it raises no error on either
call. -/
theorem c6_close_idempotent {A S C H : Type} (a : GrantApplication A S C H) :
    (a.close).state = ApplicationState.closed ∧ a.close.close = a.close :=
  ⟨rfl, rfl⟩

/-- C3 (code bug): `approve_grant(team_id)` in the source performs no
check at all — evaluated at the failing input of the spec scenario
(bounty with `foundation() = 3`, team with `org = 9`, application
awaiting team consent), it succeeds and moves the state to
`ApprovedAndLive(team_id)` instead of returning `ConsistencyError` with
the state unchanged, contradicting the rule stated in the source's own
doc comment on `TeamID` ("same org as bounty_info.foundation()"). -/
theorem c3_approve_grant_unguarded :
    (BountyInformation.new (0 : Nat) 3 ⟨0⟩ 0 (500 : Nat) 1000
        exCommittee none).foundation = 3 ∧
    (TeamID.new 9 none 1 2 : TeamID Nat).org = 9 ∧
    (exApp.start_team_consent_petition ⟨7⟩ (.threshold 2)).state
      = ApplicationState.approvedByFoundationAwaitingTeamConsent ⟨7⟩
          (.threshold 2) ∧
    ((exApp.start_team_consent_petition ⟨7⟩ (.threshold 2)).approve_grant
        (TeamID.new 9 none 1 2)).state
      = ApplicationState.approvedAndLive (TeamID.new 9 none 1 2) :=
  ⟨rfl, rfl, rfl, rfl⟩

/-- C4 counterexample: the claim says a repeated `start_review`, or one
issued from a terminal state, fails with `InvalidTransition`; the source
operation is total and cannot fail — at the spec's own scenario input
the repeated call succeeds and overwrites the vote id, and the call from
`Closed` succeeds as well. -/
theorem c4_counterexample :
    (exApp.start_application_review_petition (.petition 1)).state
        = ApplicationState.underReviewByAcceptanceCommittee (.petition 1) ∧
    ((exApp.start_application_review_petition (.petition 1)).start_application_review_petition
        (.petition 2)).state
        = ApplicationState.underReviewByAcceptanceCommittee (.petition 2) ∧
    (({ exApp with state := .closed }).start_application_review_petition
        (.petition 3)).state
        = ApplicationState.underReviewByAcceptanceCommittee (.petition 3) :=
  ⟨rfl, rfl, rfl⟩

/-- C4 as amended: `start_application_review_petition(vote_id)` always
succeeds, taking every current state — fresh, already under review, or
terminal — to `UnderReviewByAcceptanceCommittee(vote_id)`; the `live()`
gate is not consulted and no `InvalidTransition` error exists in the
operation. -/
theorem c4_start_review_unconditional {A S C H : Type}
    (a : GrantApplication A S C H) (v : VoteID) :
    (a.start_application_review_petition v).state
      = ApplicationState.underReviewByAcceptanceCommittee v :=
  rfl

/-- C1 counterexample: the claim says no operation ever returns a record
to a state it already passed; on the source, an application driven
`SubmittedAwaitingResponse → UnderReview → AwaitingTeamConsent →
ApprovedAndLive` and then hit with `start_application_review_petition`
again becomes exactly the record it was at the under-review step — a
strictly earlier state in the lifecycle order. -/
theorem c1_counterexample :
    (((exApp.start_application_review_petition (.petition 1)).start_team_consent_petition
          ⟨7⟩ (.threshold 2)).approve_grant exTeam).state
        = ApplicationState.approvedAndLive exTeam ∧
    ((((exApp.start_application_review_petition (.petition 1)).start_team_consent_petition
          ⟨7⟩ (.threshold 2)).approve_grant exTeam).start_application_review_petition
        (.petition 1))
        = exApp.start_application_review_petition (.petition 1) ∧
    applicationRank
        (ApplicationState.underReviewByAcceptanceCommittee
          (VoteID.petition 1) : ApplicationState Nat)
      < applicationRank (ApplicationState.approvedAndLive exTeam) :=
  ⟨rfl, rfl, by decide⟩

/-- C1 as amended: the forward-or-closed law holds for the milestone
state machine (its spec-modelled operations strictly advance the
lifecycle rank, so no reachable state is one already passed), while the
`GrantApplication` operations are unconditional — each produces its
fixed target state from any current state, so an application can be
returned to a state it already passed. -/
theorem c1_forward_or_closed :
    (∀ (Hash Currency : Type) (ops : List MilestoneOp)
        (m m2 : MilestoneSubmission Hash Currency MilestoneStatus),
      runMilestoneOps ops m = .ok m2 →
        milestoneRank m.review ≤ milestoneRank m2.review ∧
        (ops ≠ [] → milestoneRank m.review < milestoneRank m2.review)) ∧
    (∀ (A S C H : Type) (a : GrantApplication A S C H) (v : VoteID),
      (a.start_application_review_petition v).state
        = ApplicationState.underReviewByAcceptanceCommittee v) ∧
    (∀ (A S C H : Type) (a : GrantApplication A S C H) (sid : ShareID)
        (vid : VoteID),
      (a.start_team_consent_petition sid vid).state
        = ApplicationState.approvedByFoundationAwaitingTeamConsent sid vid) ∧
    (∀ (A S C H : Type) (a : GrantApplication A S C H) (t : TeamID A),
      (a.approve_grant t).state = ApplicationState.approvedAndLive t) :=
  ⟨fun _ _ ops m m2 h => runMilestoneOps_rank ops m m2 h,
    fun _ _ _ _ _ _ => rfl, fun _ _ _ _ _ _ _ => rfl,
    fun _ _ _ _ _ _ => rfl⟩

/-- Witness for C1: the forward law applied to the concrete run that
starts review on a freshly filed milestone, and the application clause
applied to the concrete example application. -/
theorem c1_witness :
    milestoneRank exMilestone.review ≤ milestoneRank exMilestoneStarted.review ∧
    milestoneRank exMilestone.review < milestoneRank exMilestoneStarted.review ∧
    (exApp.start_application_review_petition (VoteID.petition 1)).state
      = ApplicationState.underReviewByAcceptanceCommittee (VoteID.petition 1) := by
  have h := c1_forward_or_closed.1 Nat Nat
    [MilestoneOp.startReview (VoteID.petition 1)] exMilestone
    exMilestoneStarted rfl
  exact ⟨h.1, h.2 (by simp),
    c1_forward_or_closed.2.1 Nat Nat Nat Nat exApp (VoteID.petition 1)⟩

/-- C2: at-most-once release — from the terminal
`ApprovedAndTransferEnabled` status every milestone operation fails with
`InvalidTransition`, and in any successful run of operations no strict
prefix ever leaves the record in the terminal status (it can only be
reached once, at the very end). -/
theorem c2_at_most_once :
    (∀ (Hash Currency : Type)
        (m : MilestoneSubmission Hash Currency MilestoneStatus)
        (op : MilestoneOp),
      m.review = some MilestoneStatus.approvedAndTransferEnabled →
        applyMilestoneOp op m = .error .invalidTransition) ∧
    (∀ (Hash Currency : Type)
        (m m2 : MilestoneSubmission Hash Currency MilestoneStatus)
        (ops1 : List MilestoneOp) (op : MilestoneOp) (ops2 : List MilestoneOp),
      runMilestoneOps (ops1 ++ op :: ops2) m = .ok m2 →
        ∀ mi, runMilestoneOps ops1 m = .ok mi →
          mi.review ≠ some MilestoneStatus.approvedAndTransferEnabled) := by
  constructor
  · exact fun _ _ m op h => milestone_approved_stuck m op h
  · intro Hash Currency m m2 ops1 op ops2 hrun mi hpre happ
    rw [runMilestoneOps_append ops1 (op :: ops2) m mi hpre] at hrun
    simp only [runMilestoneOps, milestone_approved_stuck mi op happ] at hrun
    cases hrun

/-- Witness for C2: from the concrete approved milestone every further
attempt fails, and in the concrete two-step run reaching approval the
intermediate state is not yet approved. -/
theorem c2_witness :
    applyMilestoneOp MilestoneOp.approveTransfer exMilestoneApproved
        = .error .invalidTransition ∧
    exMilestoneStarted.review ≠ some MilestoneStatus.approvedAndTransferEnabled := by
  refine ⟨c2_at_most_once.1 Nat Nat exMilestoneApproved
    MilestoneOp.approveTransfer rfl, ?_⟩
  exact c2_at_most_once.2 Nat Nat exMilestone exMilestoneApproved
    [MilestoneOp.startReview (VoteID.petition 1)] MilestoneOp.approveTransfer
    [] rfl exMilestoneStarted rfl

/-- C5: bounty creation (spec-modelled entry point over the sourced
`BountyInformation::new`) fails with `InsufficientCollateralization`
exactly when `funding_reserved / claimed_funding_available` is below the
bound `boundNum / boundDen` (stated multiplicatively as
`reserved * boundDen < boundNum * available`), and otherwise returns the
`BountyInformation`; in particular reserved 100 against available 1000
at bound 1/5 fails while reserved 500 succeeds. -/
theorem c5_collateralization_gate :
    (∀ (boundNum boundDen d f : Nat) (ba : OnChainTreasuryID)
        (sr r av : Nat) (ac : ReviewBoard Nat Nat Nat)
        (sc : Option (ReviewBoard Nat Nat Nat)),
      createBounty boundNum boundDen d f ba sr r av ac sc
          = .error .insufficientCollateralization
        ↔ r * boundDen < boundNum * av) ∧
    (∀ (boundNum boundDen d f : Nat) (ba : OnChainTreasuryID)
        (sr r av : Nat) (ac : ReviewBoard Nat Nat Nat)
        (sc : Option (ReviewBoard Nat Nat Nat)),
      createBounty boundNum boundDen d f ba sr r av ac sc
          = .ok (BountyInformation.new d f ba sr r av ac sc)
        ↔ ¬ r * boundDen < boundNum * av) ∧
    createBounty 1 5 0 3 ⟨0⟩ 0 100 1000 exCommittee none
      = .error .insufficientCollateralization ∧
    createBounty 1 5 0 3 ⟨0⟩ 0 500 1000 exCommittee none
      = .ok (BountyInformation.new 0 3 ⟨0⟩ 0 500 1000 exCommittee none) := by
  refine ⟨?_, ?_, rfl, rfl⟩
  · intro boundNum boundDen d f ba sr r av ac sc
    by_cases hc : r * boundDen < boundNum * av <;> simp [createBounty, hc]
  · intro boundNum boundDen d f ba sr r av ac sc
    by_cases hc : r * boundDen < boundNum * av <;> simp [createBounty, hc]

end SunshineBounty
